import Mathlib

/-!
Shallow embedding of the `rust_sql_parser` repository
(`src/ast.rs`, `src/error.rs`, `src/tokenizer.rs`, `src/parser.rs`).

Representation notes:

* Rust's `Tokenizer` keeps `input : Vec<char>` together with an index
  `position` that is shared between character scanning and token-cursor
  access.  The character-level scanners below work on the list of characters
  that remain to the right of `position` (so Rust's `peek` is the head of the
  list and `advance` drops it); the driver recovers the numeric `position` as
  `input.length - remaining.length`.  Scanning only moves forward, so the two
  views coincide exactly.
* Rust's `u64` is modelled as `Nat` together with the explicit bound
  `2 ^ 64 - 1` at the single place where `str::parse::<u64>` can fail.
* The top-level loop of `Tokenizer::tokenize_input` is
  `while let Some(token) = self.tokenize_next_token()`, and
  `tokenize_next_token` returns `Some` on every path, so the loop can stop
  only through its `Err` branch.  The loop is therefore modelled with a fuel
  parameter: `none` means the fuel ran out while the loop was still running,
  and a result that is `none` for every fuel is a non-terminating run.
* `PrattParser::parse_expression` is recursive through `parse_primary`, so the
  parser functions also take fuel; for the concrete runs below a small fuel
  suffices.
-/

namespace Sql

/-- `Keyword` from `src/ast.rs`: the ten reserved words. -/
inductive Keyword where
  | Select
  | Create
  | Table
  | Where
  | From
  | Order
  | By
  | And
  | Or
  | Not
  deriving DecidableEq, Repr

/-- `ParseError` from `src/error.rs`. -/
inductive ParseError where
  | UnexpectedToken (msg : String)
  | ExpectedToken (msg : String)
  | ExpectedIdentifier (msg : String)
  | ExpectedType (msg : String)
  | ExpectedKeyword (msg : String)
  | ExpectedNumber (msg : String)
  | UnexpectedEndOfInput (msg : String)
  | InvalidInput (msg : String)
  deriving DecidableEq, Repr

/-- `Token` from `src/ast.rs`. -/
inductive Token where
  | Keyword (k : Keyword)
  | Identifier (s : String)
  | String (s : String)
  | Number (n : Nat)
  | Invalid (c : Char)
  | RightParentheses
  | LeftParentheses
  | Comma
  | Semicolon
  | GreaterThan
  | GreaterThanOrEqual
  | LessThan
  | LessThanOrEqual
  | Equal
  | NotEqual
  | Multiply
  | Divide
  | Minus
  | Plus
  | Eof
  deriving DecidableEq, Repr

/-- `BinaryOperator` from `src/ast.rs`. -/
inductive BinaryOperator where
  | Plus
  | Minus
  | Multiply
  | Divide
  deriving DecidableEq, Repr

/-- `Expression` from `src/ast.rs`. -/
inductive Expression where
  | BinaryOperation (left_operand : Expression) (operator : BinaryOperator)
      (right_operand : Expression)
  | Number (n : Nat)
  | Identifier (s : String)
  deriving DecidableEq, Repr

/-- Rust's `str::to_uppercase` as used by `Keyword::from_str`: uppercase each
character.  On the lexemes the tokenizer feeds it (ASCII alphanumerics and
underscores only) this agrees with Rust's Unicode uppercasing. -/
def toUpperStr (s : String) : String :=
  (s.data.map Char.toUpper).asString

/-- `Keyword::from_str` from `src/ast.rs`: match the lexeme uppercased against
the ten reserved words. -/
def Keyword.fromStr (s : String) : Option Keyword :=
  match toUpperStr s with
  | "SELECT" => some .Select
  | "CREATE" => some .Create
  | "TABLE" => some .Table
  | "WHERE" => some .Where
  | "FROM" => some .From
  | "ORDER" => some .Order
  | "BY" => some .By
  | "AND" => some .And
  | "OR" => some .Or
  | "NOT" => some .Not
  | _ => none

/-- Rust's `u64::MAX`. -/
def u64_MAX : Nat := 18446744073709551615

/-- Numeric value of a digit string (the success case of
`str::parse::<u64>`). -/
def digitsVal (cs : List Char) : Nat :=
  cs.foldl (fun a c => 10 * a + (c.toNat - 48)) 0

/-- The scanning loop of `Tokenizer::tokenize_string_literal`: the opening
quote has already been consumed; accumulate characters verbatim until a
closing quote, and report an unterminated literal when input runs out. -/
def string_lit_loop : List Char → String → Except ParseError Token × List Char
  | [], _ => (.error (.UnexpectedEndOfInput "Unterminated string literal"), [])
  | c :: rest, value =>
    if c = '"' then (.ok (.String value), rest)
    else string_lit_loop rest (value.push c)

/-- `Tokenizer::tokenize_string_literal`, entered with the opening quote still
current (the function itself advances past it). -/
def tokenize_string_literal (cs : List Char) : Except ParseError Token × List Char :=
  string_lit_loop cs.tail ""

/-- The digit-collection loop of `Tokenizer::tokenize_number`. -/
def digit_take : List Char → String → String × List Char
  | [], value => (value, [])
  | c :: rest, value =>
    if c.isDigit then digit_take rest (value.push c) else (value, c :: rest)

/-- `Tokenizer::tokenize_number`: collect the maximal ASCII-digit run, then
parse it as `u64`; a run that does not fit is an `ExpectedNumber` error, not a
truncation. -/
def tokenize_number (cs : List Char) : Except ParseError Token × List Char :=
  let r := digit_take cs ""
  if r.1 ≠ "" ∧ digitsVal r.1.data ≤ u64_MAX then
    (.ok (.Number (digitsVal r.1.data)), r.2)
  else
    (.error (.ExpectedNumber ("Invalid number: " ++ r.1)), r.2)

/-- The character class of `Tokenizer::tokenize_identifier_or_keyword`'s loop:
`ch.is_ascii_alphanumeric() || ch == '_'`. -/
def isIdentChar (c : Char) : Bool :=
  c.isAlphanum || c == '_'

/-- The lexeme-collection loop of `Tokenizer::tokenize_identifier_or_keyword`. -/
def ident_take : List Char → String → String × List Char
  | [], value => (value, [])
  | c :: rest, value =>
    if isIdentChar c then ident_take rest (value.push c) else (value, c :: rest)

/-- `Tokenizer::tokenize_identifier_or_keyword`: capture the maximal
alphanumeric/underscore run, then classify it as keyword or identifier. -/
def tokenize_identifier_or_keyword (cs : List Char) : Except ParseError Token × List Char :=
  let r := ident_take cs ""
  match Keyword.fromStr r.1 with
  | some k => (.ok (.Keyword k), r.2)
  | none => (.ok (.Identifier r.1), r.2)

/-- `Tokenizer::tokenize_next_token` from `src/tokenizer.rs`, on the remaining
input.  On every path the Rust function returns `Some`; the `Option` layer is
omitted here and restored at the single call site (the driver loop), which
treats every result as present. -/
def tokenize_next_token : List Char → Except ParseError Token × List Char
  | [] => (.ok .Eof, [])
  | c :: rest =>
    if c = ' ' ∨ c = '\t' ∨ c = '\n' ∨ c = '\r' then
      tokenize_next_token rest
    else if c = '"' then
      tokenize_string_literal (c :: rest)
    else if c.isDigit then
      tokenize_number (c :: rest)
    else if c.isAlpha ∨ c = '_' then
      tokenize_identifier_or_keyword (c :: rest)
    else if c = '(' then (.ok .LeftParentheses, rest)
    else if c = ')' then (.ok .RightParentheses, rest)
    else if c = ',' then (.ok .Comma, rest)
    else if c = ';' then (.ok .Semicolon, rest)
    else if c = '=' then
      if rest.head? = some '=' then (.ok .Equal, rest.tail)
      else (.ok .Equal, rest)
    else if c = '!' then
      if rest.head? = some '=' then (.ok .NotEqual, rest.tail)
      else (.error (.UnexpectedToken "Unexpected '!' without '='"), rest)
    else if c = '>' then
      if rest.head? = some '=' then (.ok .GreaterThanOrEqual, rest.tail)
      else (.ok .GreaterThan, rest)
    else if c = '<' then
      if rest.head? = some '=' then (.ok .LessThanOrEqual, rest.tail)
      else (.ok .LessThan, rest)
    else if c = '+' then (.ok .Plus, rest)
    else if c = '-' then (.ok .Minus, rest)
    else if c = '*' then (.ok .Multiply, rest)
    else if c = '/' then (.ok .Divide, rest)
    else
      (.error (.UnexpectedToken ("Unexpected character '" ++ String.singleton c ++ "'")), rest)

/-- The `Tokenizer` struct from `src/tokenizer.rs`. -/
structure Tokenizer where
  input : List Char
  position : Nat
  tokens : List Token
  deriving DecidableEq, Repr

/-- The `while let Some(token) = self.tokenize_next_token()` loop of
`Tokenizer::tokenize_input`.  Since `tokenize_next_token` always returns
`Some`, the loop stops only via the `Err` branch, which pushes `Eof` and
breaks; `none` means the fuel ran out with the loop still running. -/
def tokenize_input_loop : Nat → List Char → List Token → Option (List Token × List Char)
  | 0, _, _ => none
  | fuel + 1, cs, acc =>
    match tokenize_next_token cs with
    | (.ok t, cs2) => tokenize_input_loop fuel cs2 (acc ++ [t])
    | (.error _, cs2) => some (acc ++ [Token.Eof], cs2)

/-- `Tokenizer::tokenize_input`, acting on a tokenizer state: scan from the
current `position`, appending onto the current `tokens`; afterwards append
`Eof` if the vector is empty or does not already end in `Eof`. -/
def Tokenizer.tokenize_input (t : Tokenizer) (fuel : Nat) : Option Tokenizer :=
  match tokenize_input_loop fuel (t.input.drop t.position) t.tokens with
  | none => none
  | some (ts, rem) =>
    some { input := t.input,
           position := t.input.length - rem.length,
           tokens := if ts = [] ∨ ts.getLast? ≠ some Token.Eof
                     then ts ++ [Token.Eof] else ts }

/-- `Tokenizer::new`: build the state and tokenize once on initialization. -/
def Tokenizer.new (s : String) (fuel : Nat) : Option Tokenizer :=
  Tokenizer.tokenize_input { input := s.data, position := 0, tokens := [] } fuel

/-- `Tokenizer::tokenize_string`: run `tokenize_input` again, then return
`Ok` of a copy of the token vector. -/
def Tokenizer.tokenize_string (t : Tokenizer) (fuel : Nat) :
    Option (Except ParseError (List Token) × Tokenizer) :=
  match t.tokenize_input fuel with
  | none => none
  | some t2 => some (.ok t2.tokens, t2)

/-- `Tokenizer::peek_token`. -/
def Tokenizer.peek_token (t : Tokenizer) : Option Token :=
  t.tokens.get? t.position

/-- `Tokenizer::next`: return the token at `position` and advance, or keep
returning `Eof` once the recorded sequence is exhausted. -/
def Tokenizer.next (t : Tokenizer) : Option Token × Tokenizer :=
  if h : t.position < t.tokens.length then
    (some (t.tokens.get ⟨t.position, h⟩), { t with position := t.position + 1 })
  else
    (some Token.Eof, t)

/-- Rust's derived `Debug` rendering of a `Keyword`. -/
def keywordDebugFmt : Keyword → String
  | .Select => "Select"
  | .Create => "Create"
  | .Table => "Table"
  | .Where => "Where"
  | .From => "From"
  | .Order => "Order"
  | .By => "By"
  | .And => "And"
  | .Or => "Or"
  | .Not => "Not"

/-- Rust's derived `Debug` rendering of a `Token`, as interpolated into the
parser's "Unexpected token" message (string escapes are not modelled; the
payloads that reach it here are plain ASCII). -/
def tokenDebugFmt : Token → String
  | .Keyword k => "Keyword(" ++ keywordDebugFmt k ++ ")"
  | .Identifier s => "Identifier(\"" ++ s ++ "\")"
  | .String s => "String(\"" ++ s ++ "\")"
  | .Number n => "Number(" ++ toString n ++ ")"
  | .Invalid c => "Invalid('" ++ String.singleton c ++ "')"
  | .RightParentheses => "RightParentheses"
  | .LeftParentheses => "LeftParentheses"
  | .Comma => "Comma"
  | .Semicolon => "Semicolon"
  | .GreaterThan => "GreaterThan"
  | .GreaterThanOrEqual => "GreaterThanOrEqual"
  | .LessThan => "LessThan"
  | .LessThanOrEqual => "LessThanOrEqual"
  | .Equal => "Equal"
  | .NotEqual => "NotEqual"
  | .Multiply => "Multiply"
  | .Divide => "Divide"
  | .Minus => "Minus"
  | .Plus => "Plus"
  | .Eof => "Eof"

/-- The `PrattParser` struct from `src/parser.rs`. -/
structure PrattParser where
  tokenizer : Tokenizer
  current_token : Option Token
  deriving DecidableEq, Repr

/-- `PrattParser::new`: build the tokenizer (which tokenizes eagerly) and load
the first token from its cursor. -/
def PrattParser.new (s : String) (fuel : Nat) : Option PrattParser :=
  match Tokenizer.new s fuel with
  | none => none
  | some t =>
    let r := t.next
    some { tokenizer := r.2, current_token := r.1 }

/-- `PrattParser::advance`: pull the next token from the tokenizer cursor. -/
def PrattParser.advance (p : PrattParser) : PrattParser :=
  let r := p.tokenizer.next
  { tokenizer := r.2, current_token := r.1 }

/-- `PrattParser::get_precedence`: `+`/`-` bind at 1, `*`/`/` at 2, every
other token at 0. -/
def get_precedence : Token → Nat
  | .Plus | .Minus => 1
  | .Multiply | .Divide => 2
  | _ => 0

mutual

/-- `PrattParser::parse_expression`: parse a primary, then run the
operator loop. -/
def parse_expression (fuel : Nat) (prec : Nat) (p : PrattParser) :
    Option (Except ParseError Expression × PrattParser) :=
  match fuel with
  | 0 => none
  | f + 1 =>
    match parse_primary f p with
    | none => none
    | some (.error e, p1) => some (.error e, p1)
    | some (.ok left, p1) => parse_exp_loop f prec left p1

/-- The `while let Some(token) = &self.current_token` loop of
`PrattParser::parse_expression`: while the current token binds strictly
tighter than `prec`, consume it, parse the right operand at the operator's
precedence, and fold the result into `left`. -/
def parse_exp_loop (fuel : Nat) (prec : Nat) (left : Expression) (p : PrattParser) :
    Option (Except ParseError Expression × PrattParser) :=
  match fuel with
  | 0 => none
  | f + 1 =>
    match p.current_token with
    | none => some (.ok left, p)
    | some tok =>
      if get_precedence tok ≤ prec then some (.ok left, p)
      else
        match parse_expression f (get_precedence tok) p.advance with
        | none => none
        | some (.error e, p2) => some (.error e, p2)
        | some (.ok right, p2) =>
          match tok with
          | Token.Plus =>
            parse_exp_loop f prec (.BinaryOperation left .Plus right) p2
          | Token.Minus =>
            parse_exp_loop f prec (.BinaryOperation left .Minus right) p2
          | Token.Multiply =>
            parse_exp_loop f prec (.BinaryOperation left .Multiply right) p2
          | Token.Divide =>
            parse_exp_loop f prec (.BinaryOperation left .Divide right) p2
          | _ => some (.error (.InvalidInput "Unexpected operator"), p2)

/-- `PrattParser::parse_primary`: number, identifier, or parenthesized
sub-expression; anything else (or an absent token) is an `InvalidInput`
error. -/
def parse_primary (fuel : Nat) (p : PrattParser) :
    Option (Except ParseError Expression × PrattParser) :=
  match fuel with
  | 0 => none
  | f + 1 =>
    match p.current_token with
    | some (Token.Number n) => some (.ok (.Number n), p.advance)
    | some (Token.Identifier s) => some (.ok (.Identifier s), p.advance)
    | some Token.LeftParentheses =>
      match parse_expression f 0 p.advance with
      | none => none
      | some (.error e, p1) => some (.error e, p1)
      | some (.ok expr, p1) =>
        match p1.current_token with
        | some Token.RightParentheses => some (.ok expr, p1.advance)
        | _ => some (.error (.InvalidInput "Expected closing parenthesis"), p1)
    | some t => some (.error (.InvalidInput ("Unexpected token: " ++ tokenDebugFmt t)), p)
    | none => some (.error (.InvalidInput "Unexpected end of input"), p)

end

/-- `PrattParser::parse`: parse an expression with minimum precedence 0. -/
def PrattParser.parse (p : PrattParser) (fuel : Nat) :
    Option (Except ParseError Expression × PrattParser) :=
  parse_expression fuel 0 p

/-! ## Helper lemmas -/

/-- Once the remaining input is empty, every iteration of the driver loop gets
`Ok(Eof)` back from `tokenize_next_token`, pushes it, and keeps going: the
loop never returns, whatever the fuel. -/
theorem tokenize_input_loop_nil_none :
    ∀ (fuel : Nat) (acc : List Token), tokenize_input_loop fuel [] acc = none := by
  intro fuel
  induction fuel with
  | zero => intro acc; rfl
  | succ f ih =>
    intro acc
    show tokenize_input_loop f [] (acc ++ [Token.Eof]) = none
    exact ih (acc ++ [Token.Eof])

/-- `tokenize_string_literal` never produces the `Eof` token. -/
theorem string_lit_loop_fst_ne_eof :
    ∀ (cs : List Char) (value : String),
      (string_lit_loop cs value).1 ≠ Except.ok Token.Eof := by
  intro cs
  induction cs with
  | nil => intro value; simp [string_lit_loop]
  | cons c rest ih =>
    intro value
    by_cases h : c = '"'
    · simp [string_lit_loop, h]
    · simpa [string_lit_loop, h] using ih (value.push c)

/-- `tokenize_string_literal` never produces the `Eof` token. -/
theorem tokenize_string_literal_fst_ne_eof (cs : List Char) :
    (tokenize_string_literal cs).1 ≠ Except.ok Token.Eof :=
  string_lit_loop_fst_ne_eof cs.tail ""

/-- `tokenize_number` never produces the `Eof` token. -/
theorem tokenize_number_fst_ne_eof (cs : List Char) :
    (tokenize_number cs).1 ≠ Except.ok Token.Eof := by
  simp only [tokenize_number]
  split <;> simp

/-- `tokenize_identifier_or_keyword` never produces the `Eof` token. -/
theorem tokenize_identifier_or_keyword_fst_ne_eof (cs : List Char) :
    (tokenize_identifier_or_keyword cs).1 ≠ Except.ok Token.Eof := by
  simp only [tokenize_identifier_or_keyword]
  cases Keyword.fromStr (ident_take cs "").1 <;> simp

set_option maxHeartbeats 1600000 in
/-- The scan step hands `Ok(Eof)` back only when it has exhausted the input
(possibly after skipping trailing whitespace). -/
theorem tokenize_next_token_ok_eof :
    ∀ (cs cs2 : List Char),
      tokenize_next_token cs = (Except.ok Token.Eof, cs2) → cs2 = [] := by
  intro cs
  induction cs with
  | nil =>
    intro cs2 h
    exact (congrArg Prod.snd h).symm
  | cons c rest ih =>
    intro cs2 h
    rw [tokenize_next_token] at h
    by_cases h1 : c = ' ' ∨ c = '\t' ∨ c = '\n' ∨ c = '\r'
    · rw [if_pos h1] at h
      exact ih cs2 h
    rw [if_neg h1] at h
    by_cases h2 : c = '"'
    · rw [if_pos h2] at h
      exact absurd (congrArg Prod.fst h) (tokenize_string_literal_fst_ne_eof (c :: rest))
    rw [if_neg h2] at h
    by_cases h3 : c.isDigit = true
    · rw [if_pos h3] at h
      exact absurd (congrArg Prod.fst h) (tokenize_number_fst_ne_eof (c :: rest))
    rw [if_neg h3] at h
    by_cases h4 : c.isAlpha = true ∨ c = '_'
    · rw [if_pos h4] at h
      exact absurd (congrArg Prod.fst h) (tokenize_identifier_or_keyword_fst_ne_eof (c :: rest))
    rw [if_neg h4] at h
    by_cases h5 : c = '('
    · rw [if_pos h5] at h; simp at h
    rw [if_neg h5] at h
    by_cases h6 : c = ')'
    · rw [if_pos h6] at h; simp at h
    rw [if_neg h6] at h
    by_cases h7 : c = ','
    · rw [if_pos h7] at h; simp at h
    rw [if_neg h7] at h
    by_cases h8 : c = ';'
    · rw [if_pos h8] at h; simp at h
    rw [if_neg h8] at h
    by_cases h9 : c = '='
    · rw [if_pos h9] at h; split at h <;> simp at h
    rw [if_neg h9] at h
    by_cases h10 : c = '!'
    · rw [if_pos h10] at h; split at h <;> simp at h
    rw [if_neg h10] at h
    by_cases h11 : c = '>'
    · rw [if_pos h11] at h; split at h <;> simp at h
    rw [if_neg h11] at h
    by_cases h12 : c = '<'
    · rw [if_pos h12] at h; split at h <;> simp at h
    rw [if_neg h12] at h
    by_cases h13 : c = '+'
    · rw [if_pos h13] at h; simp at h
    rw [if_neg h13] at h
    by_cases h14 : c = '-'
    · rw [if_pos h14] at h; simp at h
    rw [if_neg h14] at h
    by_cases h15 : c = '*'
    · rw [if_pos h15] at h; simp at h
    rw [if_neg h15] at h
    by_cases h16 : c = '/'
    · rw [if_pos h16] at h; simp at h
    rw [if_neg h16] at h
    simp at h

/-- Any terminating run of the driver loop went through the `Err` branch:
the produced vector is the accumulator followed by the `Ok` tokens scanned so
far (none of which can be `Eof`) and a final pushed `Eof`. -/
theorem tokenize_input_loop_some :
    ∀ (fuel : Nat) (cs : List Char) (acc ts : List Token) (rem : List Char),
      tokenize_input_loop fuel cs acc = some (ts, rem) →
      ∃ mid, ts = acc ++ mid ++ [Token.Eof] ∧ Token.Eof ∉ mid := by
  intro fuel
  induction fuel with
  | zero =>
    intro cs acc ts rem h
    simp [tokenize_input_loop] at h
  | succ f ih =>
    intro cs acc ts rem h
    rw [tokenize_input_loop] at h
    rcases hstep : tokenize_next_token cs with ⟨res, cs2⟩
    rw [hstep] at h
    cases res with
    | error e =>
      have h2 : some (acc ++ [Token.Eof], cs2) = some (ts, rem) := h
      simp only [Option.some.injEq, Prod.mk.injEq] at h2
      exact ⟨[], by simp [h2.1.symm], by simp⟩
    | ok t =>
      have h2 : tokenize_input_loop f cs2 (acc ++ [t]) = some (ts, rem) := h
      by_cases ht : t = Token.Eof
      · subst ht
        have hnil := tokenize_next_token_ok_eof cs cs2 hstep
        rw [hnil, tokenize_input_loop_nil_none] at h2
        cases h2
      · obtain ⟨mid, hts, hmem⟩ := ih cs2 (acc ++ [t]) ts rem h2
        refine ⟨t :: mid, ?_, ?_⟩
        · simp [hts]
        · simp only [List.mem_cons, not_or]
          exact ⟨fun hc => ht hc.symm, hmem⟩

/-- If the scan step succeeds at the current state, one loop iteration simply
records the token and continues from the rest of the input. -/
theorem tokenize_input_loop_ok_step (cs cs2 : List Char) (t : Token)
    (hstep : tokenize_next_token cs = (Except.ok t, cs2))
    (h : ∀ (fuel : Nat) (acc : List Token), tokenize_input_loop fuel cs2 acc = none) :
    ∀ (fuel : Nat) (acc : List Token), tokenize_input_loop fuel cs acc = none := by
  intro fuel acc
  cases fuel with
  | zero => rfl
  | succ f =>
    rw [tokenize_input_loop, hstep]
    exact h f (acc ++ [t])

/-- Companion to `tokenize_input_loop_ok_step` for `Tokenizer::new`: a
tokenizer whose construction loop never finishes is never built. -/
theorem tokenizer_new_none (s : String)
    (h : ∀ (fuel : Nat) (acc : List Token), tokenize_input_loop fuel s.data acc = none) :
    ∀ fuel : Nat, Tokenizer.new s fuel = none := by
  intro fuel
  unfold Tokenizer.new Tokenizer.tokenize_input
  rw [List.drop_zero, h fuel []]

/-! ## Claims -/

/-- C1: the spec says the eager tokenization pass at `Tokenizer::new`
terminates on every input.  It does not: `tokenize_next_token` returns
`Some(Ok(Eof))` once the input is exhausted and `tokenize_input`'s
`while let Some(...)` loop breaks only in its `Err` branch, so on any input
with no lexical error (here `""` and `"1"`) the loop pushes `Eof` forever:
the fuel-indexed construction returns `none` for every fuel. -/
theorem claim_C1_eager_tokenization_diverges :
    ∀ fuel : Nat, Tokenizer.new "" fuel = none ∧ Tokenizer.new "1" fuel = none := by
  intro fuel
  constructor
  · exact tokenizer_new_none "" (fun f acc => tokenize_input_loop_nil_none f acc) fuel
  · refine tokenizer_new_none "1" ?_ fuel
    exact tokenize_input_loop_ok_step "1".data [] (Token.Number 1) rfl
      tokenize_input_loop_nil_none

/-- C5: on the first lexical error the eager pass stops at once: a loop
iteration whose scan step errors returns the accumulated tokens plus one
pushed `Eof` and leaves the remaining input unscanned, whatever fuel is left;
in particular lexing the unterminated string `"abc` (opening quote, no close)
yields an `UnexpectedEndOfInput` error from the scan step and a stored
sequence of just the `Eof` sentinel. -/
theorem claim_C5_fail_fast_truncation :
    (∀ (fuel : Nat) (cs : List Char) (acc : List Token) (e : ParseError) (cs2 : List Char),
        tokenize_next_token cs = (Except.error e, cs2) →
        tokenize_input_loop (fuel + 1) cs acc = some (acc ++ [Token.Eof], cs2)) ∧
    tokenize_next_token "\"abc".data =
      (Except.error (ParseError.UnexpectedEndOfInput "Unterminated string literal"), []) ∧
    Tokenizer.new "\"abc" 1 =
      some { input := "\"abc".data, position := 4, tokens := [Token.Eof] } := by
  refine ⟨?_, rfl, rfl⟩
  intro fuel cs acc e cs2 hstep
  rw [tokenize_input_loop, hstep]

/-- Witness for C5 at a concrete input: scanning `"!x"` errors on the bare
`!`, and one loop iteration truncates to the sentinel with `"x"` unscanned. -/
theorem claim_C5_fail_fast_truncation_witness :
    tokenize_input_loop 1 "!x".data [] = some (([] : List Token) ++ [Token.Eof], "x".data) :=
  claim_C5_fail_fast_truncation.1 0 "!x".data []
    (ParseError.UnexpectedToken "Unexpected '!' without '='") "x".data rfl

/-- C7: the maximal digit run `18446744073709551615` (`u64::MAX`) lexes to a
number token with exactly that value; the run `18446744073709551616` lexes to
an `ExpectedNumber` error, not a truncated or wrapped value. -/
theorem claim_C7_u64_bounds :
    tokenize_number "18446744073709551615".data =
      (Except.ok (Token.Number 18446744073709551615), []) ∧
    tokenize_number "18446744073709551616".data =
      (Except.error (ParseError.ExpectedNumber "Invalid number: 18446744073709551616"), []) ∧
    u64_MAX = 18446744073709551615 :=
  ⟨rfl, rfl, rfl⟩

/-- C8: operator scanning: `>=`, `<=`, `!=` each consume two characters and
yield one token; `=` and `==` both yield a single `Equal`; a bare `!` is an
`UnexpectedToken` lexical error. -/
theorem claim_C8_operator_scanning :
    tokenize_next_token ">=".data = (Except.ok Token.GreaterThanOrEqual, []) ∧
    tokenize_next_token "<=".data = (Except.ok Token.LessThanOrEqual, []) ∧
    tokenize_next_token "!=".data = (Except.ok Token.NotEqual, []) ∧
    tokenize_next_token "=".data = (Except.ok Token.Equal, []) ∧
    tokenize_next_token "==".data = (Except.ok Token.Equal, []) ∧
    tokenize_next_token "!".data =
      (Except.error (ParseError.UnexpectedToken "Unexpected '!' without '='"), []) :=
  ⟨rfl, rfl, rfl, rfl, rfl, rfl⟩

/-- C4: the spec says `parse()` consumes the token stream positioned at its
start.  The code shares `position` between character scanning and the token
cursor, so after construction the cursor sits at the character count, not 0:
on `"1?"` (two characters, stored tokens `[Number 1, Eof]`, position 2) the
first token the parser examines is `Eof`, not the sequence's first token
`Number 1`. -/
theorem claim_C4_parser_cursor_mispositioned :
    Tokenizer.new "1?" 2 =
      some { input := "1?".data, position := 2, tokens := [Token.Number 1, Token.Eof] } ∧
    PrattParser.new "1?" 2 =
      some { tokenizer := { input := "1?".data, position := 2,
                            tokens := [Token.Number 1, Token.Eof] },
             current_token := some Token.Eof } ∧
    List.get? [Token.Number 1, Token.Eof] 0 = some (Token.Number 1) ∧
    some Token.Eof ≠ some (Token.Number 1) :=
  ⟨rfl, rfl, rfl, by decide⟩

/-- C6: the spec says repeated whole-sequence retrieval is pure and returns
the identical sequence.  It is not: `tokenize_string` re-runs
`tokenize_input` from the current shared `position`, mutating the stored
vector.  On `"!!?"` construction stores `[Eof]`; the first retrieval returns
`[Eof, Eof]` and the second returns `[Eof, Eof, Eof]`. -/
theorem claim_C6_tokenize_string_not_pure :
    Tokenizer.new "!!?" 1 =
      some { input := "!!?".data, position := 1, tokens := [Token.Eof] } ∧
    Tokenizer.tokenize_string
        { input := "!!?".data, position := 1, tokens := [Token.Eof] } 1 =
      some (Except.ok [Token.Eof, Token.Eof],
            { input := "!!?".data, position := 2, tokens := [Token.Eof, Token.Eof] }) ∧
    Tokenizer.tokenize_string
        { input := "!!?".data, position := 2, tokens := [Token.Eof, Token.Eof] } 1 =
      some (Except.ok [Token.Eof, Token.Eof, Token.Eof],
            { input := "!!?".data, position := 3,
              tokens := [Token.Eof, Token.Eof, Token.Eof] }) ∧
    ([Token.Eof, Token.Eof] : List Token) ≠ [Token.Eof, Token.Eof, Token.Eof] :=
  ⟨rfl, rfl, rfl, by decide⟩

/-- C10: whenever `tokenize_string` returns, its `Result` is `Ok` (of the
stored token vector): the `Err` branch of its return type is unreachable. -/
theorem claim_C10_tokenize_string_never_err (t : Tokenizer) (fuel : Nat)
    (r : Except ParseError (List Token) × Tokenizer)
    (h : Tokenizer.tokenize_string t fuel = some r) :
    r.1 = Except.ok r.2.tokens := by
  unfold Tokenizer.tokenize_string at h
  rcases ht : Tokenizer.tokenize_input t fuel with _ | t2
  · rw [ht] at h
    cases h
  · rw [ht] at h
    have h2 : some ((Except.ok t2.tokens : Except ParseError (List Token)), t2) = some r := h
    cases h2
    rfl

/-- Witness for C10 at a concrete run: retrieval on the tokenizer state for
`"?"` returns `Ok` of the stored vector. -/
theorem claim_C10_tokenize_string_never_err_witness :
    ((Except.ok [Token.Eof] : Except ParseError (List Token)),
      Tokenizer.mk "?".data 1 [Token.Eof]).1 =
      Except.ok ((Except.ok [Token.Eof] : Except ParseError (List Token)),
        Tokenizer.mk "?".data 1 [Token.Eof]).2.tokens :=
  claim_C10_tokenize_string_never_err (Tokenizer.mk "?".data 0 []) 1 _ rfl

/-- C3: whenever construction-time tokenization terminates, the stored token
sequence ends in `Eof` and contains exactly one `Eof` (so in particular no
second one after it): the loop's `Ok` tokens are never `Eof` (an `Ok(Eof)`
step would mean exhausted input and hence divergence), the `Err` break pushes
exactly one, and the trailing append-if-missing check then leaves the vector
unchanged. -/
theorem claim_C3_single_eof_sentinel (s : String) (fuel : Nat) (T : Tokenizer)
    (h : Tokenizer.new s fuel = some T) :
    T.tokens.getLast? = some Token.Eof ∧ T.tokens.count Token.Eof = 1 := by
  unfold Tokenizer.new Tokenizer.tokenize_input at h
  rw [List.drop_zero] at h
  rcases hl : tokenize_input_loop fuel s.data [] with _ | ⟨ts, rem⟩
  · rw [hl] at h
    cases h
  · rw [hl] at h
    obtain ⟨mid, hts, hmem⟩ := tokenize_input_loop_some fuel s.data [] ts rem hl
    rw [List.nil_append] at hts
    have hlast : ts.getLast? = some Token.Eof := by
      rw [hts]
      exact List.getLast?_concat _
    have hcond : ¬(ts = [] ∨ ts.getLast? ≠ some Token.Eof) := by
      rintro (h0 | h0)
      · rw [h0] at hts
        exact absurd hts.symm (by simp)
      · exact h0 hlast
    have h2 : some (Tokenizer.mk s.data (s.data.length - rem.length)
        (if ts = [] ∨ ts.getLast? ≠ some Token.Eof then ts ++ [Token.Eof] else ts)) =
        some T := h
    have h3 : T.tokens =
        if ts = [] ∨ ts.getLast? ≠ some Token.Eof then ts ++ [Token.Eof] else ts := by
      cases h2
      rfl
    rw [h3, if_neg hcond]
    refine ⟨hlast, ?_⟩
    rw [hts, List.count_append, List.count_eq_zero.mpr hmem]
    rfl

/-- Witness for C3 at a concrete run: on `"@"` (a lexical error) the stored
sequence is `[Eof]`, ending in its unique sentinel. -/
theorem claim_C3_single_eof_sentinel_witness :
    (Tokenizer.mk "@".data 1 [Token.Eof]).tokens.getLast? = some Token.Eof ∧
    (Tokenizer.mk "@".data 1 [Token.Eof]).tokens.count Token.Eof = 1 :=
  claim_C3_single_eof_sentinel "@" 1 (Tokenizer.mk "@".data 1 [Token.Eof]) rfl

/-- `ident_take` collects exactly the maximal prefix of
alphanumeric/underscore characters and leaves the rest. -/
theorem ident_take_spec :
    ∀ (cs : List Char) (value : String),
      ident_take cs value =
        ((value.data ++ cs.takeWhile isIdentChar).asString, cs.dropWhile isIdentChar) := by
  intro cs
  induction cs with
  | nil =>
    intro value
    simp [ident_take, List.takeWhile, List.dropWhile, List.asString]
  | cons c rest ih =>
    intro value
    by_cases hc : isIdentChar c = true
    · rw [ident_take, if_pos hc, ih, List.takeWhile_cons_of_pos hc,
        List.dropWhile_cons_of_pos hc, String.data_push]
      simp
    · rw [ident_take, if_neg hc, List.takeWhile_cons_of_neg (by simpa using hc),
        List.dropWhile_cons_of_neg (by simpa using hc)]
      simp [List.asString]

/-- `tokenize_identifier_or_keyword` factors as capture-then-classify: it
first takes the maximal alphanumeric/underscore lexeme, and only then decides
between keyword and identifier. -/
theorem tokenize_identifier_or_keyword_spec (cs : List Char) :
    tokenize_identifier_or_keyword cs =
      ((match Keyword.fromStr (cs.takeWhile isIdentChar).asString with
        | some k => Except.ok (Token.Keyword k)
        | none => Except.ok (Token.Identifier (cs.takeWhile isIdentChar).asString)),
       cs.dropWhile isIdentChar) := by
  have hd : ("" : String).data = [] := rfl
  rw [tokenize_identifier_or_keyword, ident_take_spec cs "", hd, List.nil_append]
  cases Keyword.fromStr (cs.takeWhile isIdentChar).asString <;> rfl

/-- C9: identifier-or-keyword lexing is maximal-munch followed by
classification: the scanned lexeme is the maximal alphanumeric/underscore
run; `"abc123_x"` stays one identifier token with that exact text; and any
lexeme whose uppercasing is a reserved word (here `SELECT`) becomes the
keyword token. -/
theorem claim_C9_maximal_munch_then_classify :
    (∀ cs : List Char,
        tokenize_identifier_or_keyword cs =
          ((match Keyword.fromStr (cs.takeWhile isIdentChar).asString with
            | some k => Except.ok (Token.Keyword k)
            | none => Except.ok (Token.Identifier (cs.takeWhile isIdentChar).asString)),
           cs.dropWhile isIdentChar)) ∧
    tokenize_identifier_or_keyword "abc123_x".data =
      (Except.ok (Token.Identifier "abc123_x"), []) ∧
    (∀ cs : List Char,
        toUpperStr (cs.takeWhile isIdentChar).asString = "SELECT" →
        tokenize_identifier_or_keyword cs =
          (Except.ok (Token.Keyword Keyword.Select), cs.dropWhile isIdentChar)) := by
  refine ⟨tokenize_identifier_or_keyword_spec, rfl, ?_⟩
  intro cs hup
  rw [tokenize_identifier_or_keyword_spec cs]
  have hk : Keyword.fromStr (cs.takeWhile isIdentChar).asString = some Keyword.Select := by
    rw [Keyword.fromStr, hup]
    rfl
  rw [hk]

/-- Witness for C9 at a concrete input: a mixed-case `SeLeCt` lexes to the
`Select` keyword token. -/
theorem claim_C9_maximal_munch_then_classify_witness :
    tokenize_identifier_or_keyword "SeLeCt".data =
      (Except.ok (Token.Keyword Keyword.Select), "SeLeCt".data.dropWhile isIdentChar) :=
  claim_C9_maximal_munch_then_classify.2.2 "SeLeCt".data rfl

/-- C2: the precedence table is `+`/`-` at 1, `*`/`/` at 2, other tokens at
0, and the expression parser run on the token sequences of `"1+2*3"` and
`"1-2-3"` (cursor at their start, as the spec positions it) produces
`1 + (2*3)` and `(1-2) - 3` respectively.  However `parse()` is never reached
on those inputs: `PrattParser::new` calls `Tokenizer::new`, whose tokenization
loop diverges on any error-free input (see C1), so the construction returns
`none` for every fuel. -/
theorem claim_C2_precedence_and_associativity :
    (∀ fuel : Nat, PrattParser.new "1+2*3" fuel = none) ∧
    (∀ fuel : Nat, PrattParser.new "1-2-3" fuel = none) ∧
    PrattParser.parse
      { tokenizer := { input := "1+2*3".data, position := 1,
                       tokens := [Token.Number 1, Token.Plus, Token.Number 2,
                                  Token.Multiply, Token.Number 3, Token.Eof] },
        current_token := some (Token.Number 1) } 20 =
      some (Except.ok
        (Expression.BinaryOperation (Expression.Number 1) BinaryOperator.Plus
          (Expression.BinaryOperation (Expression.Number 2) BinaryOperator.Multiply
            (Expression.Number 3))),
        { tokenizer := { input := "1+2*3".data, position := 6,
                         tokens := [Token.Number 1, Token.Plus, Token.Number 2,
                                    Token.Multiply, Token.Number 3, Token.Eof] },
          current_token := some Token.Eof }) ∧
    PrattParser.parse
      { tokenizer := { input := "1-2-3".data, position := 1,
                       tokens := [Token.Number 1, Token.Minus, Token.Number 2,
                                  Token.Minus, Token.Number 3, Token.Eof] },
        current_token := some (Token.Number 1) } 20 =
      some (Except.ok
        (Expression.BinaryOperation
          (Expression.BinaryOperation (Expression.Number 1) BinaryOperator.Minus
            (Expression.Number 2))
          BinaryOperator.Minus (Expression.Number 3)),
        { tokenizer := { input := "1-2-3".data, position := 6,
                         tokens := [Token.Number 1, Token.Minus, Token.Number 2,
                                    Token.Minus, Token.Number 3, Token.Eof] },
          current_token := some Token.Eof }) ∧
    get_precedence Token.Plus = 1 ∧ get_precedence Token.Minus = 1 ∧
    get_precedence Token.Multiply = 2 ∧ get_precedence Token.Divide = 2 ∧
    get_precedence Token.Eof = 0 ∧ get_precedence Token.LeftParentheses = 0 ∧
    get_precedence (Token.Number 7) = 0 ∧ get_precedence (Token.Identifier "x") = 0 := by
  refine ⟨?_, ?_, rfl, rfl, rfl, rfl, rfl, rfl, rfl, rfl, rfl, rfl⟩
  · have s5 := tokenize_input_loop_nil_none
    have s4 := tokenize_input_loop_ok_step "3".data [] (Token.Number 3) rfl s5
    have s3 := tokenize_input_loop_ok_step "*3".data "3".data Token.Multiply rfl s4
    have s2 := tokenize_input_loop_ok_step "2*3".data "*3".data (Token.Number 2) rfl s3
    have s1 := tokenize_input_loop_ok_step "+2*3".data "2*3".data Token.Plus rfl s2
    have s0 := tokenize_input_loop_ok_step "1+2*3".data "+2*3".data (Token.Number 1) rfl s1
    intro fuel
    unfold PrattParser.new
    rw [tokenizer_new_none "1+2*3" s0 fuel]
  · have s5 := tokenize_input_loop_nil_none
    have s4 := tokenize_input_loop_ok_step "3".data [] (Token.Number 3) rfl s5
    have s3 := tokenize_input_loop_ok_step "-3".data "3".data Token.Minus rfl s4
    have s2 := tokenize_input_loop_ok_step "2-3".data "-3".data (Token.Number 2) rfl s3
    have s1 := tokenize_input_loop_ok_step "-2-3".data "2-3".data Token.Minus rfl s2
    have s0 := tokenize_input_loop_ok_step "1-2-3".data "-2-3".data (Token.Number 1) rfl s1
    intro fuel
    unfold PrattParser.new
    rw [tokenizer_new_none "1-2-3" s0 fuel]

end Sql
